import Mathlib

/-
  A shallow embedding of the AstraGuard simulation core
  (src/telemetry_simulator.py, src/controller.py, src/comparison.py).

  Modelling conventions:
  * Python floats are modelled as rationals (ℚ); `np.clip(x, lo, hi)` is
    `min hi (max lo x)`; pandas rows are a record `TelemetrySample`, a
    DataFrame is a `List TelemetrySample` in index order.
  * The transcendental helpers `np.sin` / `np.cos` and the seeded Gaussian
    draws of `np.random.default_rng(seed).normal` are not algebraic, so they
    enter the embedding as explicit function parameters: `sinF cosF : ℚ → ℚ`
    and a draw table `noise : Int → Nat → Nat → ℚ` giving the standard-normal
    draw for a (seed, channel, step); `rng.normal(0, σ, n)[t]` is
    `noise seed ch t * σ`, which is exactly numpy's `loc + scale * z`.
    Nothing is assumed about these parameters unless a theorem says so.
  * Fallible Python functions (a `raise`) return `Except String _`.
  * The anomaly detector (sklearn IsolationForest) is external library code;
    `run_scenario` consumes its output through the boolean flag sequence
    `is_anom` (in the source: `score` followed by the threshold comparison).
    Both runs of the comparison harness score the same trace with the same
    fitted detector, hence see the same flags.
-/

/-- One row of a telemetry DataFrame: columns `t`, `battery`, `temperature`,
`signal`, `cpu_load` (telemetry_simulator.py lines 36-44). -/
structure TelemetrySample where
  t : ℚ
  battery : ℚ
  temperature : ℚ
  signal : ℚ
  cpu_load : ℚ
  deriving DecidableEq, Repr, Inhabited

/-- `Series.clip(lo, hi)` for one value. -/
def clip (lo hi x : ℚ) : ℚ := min hi (max lo x)

/-- `diagnose_failure` (controller.py lines 5-17): first matching threshold
wins. -/
def diagnose_failure (row : TelemetrySample) : String :=
  if row.temperature > 50 then "thermal"
  else if row.battery < 35 then "power"
  else if row.signal < 40 then "comm"
  else if row.cpu_load > 85 then "cpu"
  else "unknown"

/-- `apply_recovery` (controller.py lines 20-46): one-step additive
mitigation on a copy of the row, clamped with `max` / `min` exactly as in the
source; an unrecognized mode returns the row unchanged. -/
def apply_recovery (row : TelemetrySample) (failure : String) : TelemetrySample :=
  if failure = "thermal" then
    { row with temperature := max 20 (row.temperature - 3),
               cpu_load := max 0 (row.cpu_load - 8),
               battery := max 0 (row.battery - 0.3) }
  else if failure = "power" then
    { row with cpu_load := max 0 (row.cpu_load - 10),
               battery := min 100 (row.battery + 0.6) }
  else if failure = "comm" then
    { row with signal := min 100 (row.signal + 12),
               cpu_load := min 100 (row.cpu_load + 2),
               battery := max 0 (row.battery - 0.2) }
  else if failure = "cpu" then
    { row with cpu_load := max 0 (row.cpu_load - 15),
               battery := max 0 (row.battery - 0.2) }
  else
    row

/-- Battery term of `mission_damage` (controller.py lines 55-56). -/
def batteryDamage (b : ℚ) : ℚ := if b < 40 then (40 - b) * 0.6 else 0

/-- Temperature term of `mission_damage` (controller.py lines 58-59). -/
def temperatureDamage (T : ℚ) : ℚ := if T > 45 then (T - 45) * 1.2 else 0

/-- Signal term of `mission_damage` (controller.py lines 61-62). -/
def signalDamage (s : ℚ) : ℚ := if s < 50 then (50 - s) * 0.7 else 0

/-- CPU term of `mission_damage` (controller.py lines 64-65). -/
def cpuDamage (c : ℚ) : ℚ := if c > 80 then (c - 80) * 0.4 else 0

/-- `mission_damage` (controller.py lines 49-66): the accumulator starts at 0
and adds the four conditional penalty terms. -/
def mission_damage (row : TelemetrySample) : ℚ :=
  batteryDamage row.battery + temperatureDamage row.temperature
    + signalDamage row.signal + cpuDamage row.cpu_load

/-- Index-aware map, used to model vectorized numpy updates that touch each
row as a function of its position. -/
def mapFromIdx (f : Nat → TelemetrySample → TelemetrySample) :
    Nat → List TelemetrySample → List TelemetrySample
  | _, [] => []
  | i, x :: xs => f i x :: mapFromIdx f (i + 1) xs

/-- `simulate_telemetry` (telemetry_simulator.py lines 6-51).  Trend and
periodic terms are literal; `sinF`/`cosF` stand for `np.sin`/`np.cos` and
`noise seed ch t * σ` for the seeded draw `rng.normal(0, σ, n_steps)[t]`
(channels drawn in source order: battery 0, temperature 1, signal 2,
cpu_load 3).  The source has no argument checks of its own; the library
calls raise numpy's ValueError: `np.random.default_rng(seed)` (line 21)
rejects a negative seed before any drawing, and the first
`rng.normal(0, 0.25*noise_scale, size=n_steps)` call (line 31) rejects a
negative size and a negative scale (which of those two messages numpy emits
first at that one call is not modelled; the error condition is).  So
`n_steps = 0` with a valid seed and scale yields an empty series without
error.  `battery`, `signal` and `cpu_load` are clipped to [0, 100];
`temperature` is not clipped. -/
def simulate_telemetry (sinF cosF : ℚ → ℚ) (noise : Int → Nat → Nat → ℚ)
    (n_steps : Int) (seed : Int) (noise_scale : ℚ) :
    Except String (List TelemetrySample) :=
  if seed < 0 then
    .error "ValueError: expected non-negative seed"
  else if n_steps < 0 then
    .error "ValueError: negative dimensions are not allowed"
  else if noise_scale < 0 then
    .error "ValueError: scale < 0"
  else
    .ok <| (List.range n_steps.toNat).map fun (t : Nat) =>
      let tq : ℚ := (t : ℚ)
      let battery := 100 - 0.02 * tq + 0.6 * sinF (tq / 30)
        + noise seed 0 t * (0.25 * noise_scale)
      let temperature := 35 + 0.8 * sinF (tq / 18) + 0.5 * cosF (tq / 50)
        + noise seed 1 t * (0.35 * noise_scale)
      let signal := 85 + 3.0 * sinF (tq / 40) - 0.02 * (tq / 10)
        + noise seed 2 t * (0.9 * noise_scale)
      let cpu := 35 + 8.0 * sinF (tq / 10) + 5.0 * cosF (tq / 17)
        + noise seed 3 t * (1.2 * noise_scale)
      { t := tq,
        battery := clip 0 100 battery,
        temperature := temperature,
        signal := clip 0 100 signal,
        cpu_load := clip 0 100 cpu }

/-- The thermal_runaway perturbation on the row `k` steps past `start`
(telemetry_simulator.py lines 75-77). -/
def thermalPerturb (sinF : ℚ → ℚ) (severity : ℚ) (k : Nat)
    (s : TelemetrySample) : TelemetrySample :=
  { s with temperature := s.temperature + severity * (0.05 * k + 0.8 * sinF (k / 7)),
           cpu_load := s.cpu_load + severity * (0.03 * k) }

/-- The power_drain perturbation (telemetry_simulator.py lines 78-80). -/
def powerPerturb (sinF : ℚ → ℚ) (severity : ℚ) (k : Nat)
    (s : TelemetrySample) : TelemetrySample :=
  { s with battery := s.battery - severity * (0.06 * k + 0.4 * |sinF (k / 10)|),
           cpu_load := s.cpu_load - severity * (0.01 * k) }

/-- The comm_drop perturbation (telemetry_simulator.py lines 81-83). -/
def commPerturb (sinF : ℚ → ℚ) (severity : ℚ) (k : Nat)
    (s : TelemetrySample) : TelemetrySample :=
  { s with signal := s.signal - severity * (0.18 * k + 3.0 * |sinF (k / 6)|),
           cpu_load := s.cpu_load + severity * (0.02 * k) }

/-- The final re-clip of the bounded channels (telemetry_simulator.py
lines 87-90). -/
def reclipRow (s : TelemetrySample) : TelemetrySample :=
  { s with battery := clip 0 100 s.battery,
           signal := clip 0 100 s.signal,
           cpu_load := clip 0 100 s.cpu_load }

/-- `inject_failure` (telemetry_simulator.py lines 54-92): works on a copy
of the input, clamps `start` into `[0, n-1]`, perturbs rows `t ≥ start` as a
function of `k = t - start`, raises ValueError on an unknown archetype, and
re-clips the bounded channels of every row. -/
def inject_failure (sinF : ℚ → ℚ) (df : List TelemetrySample)
    (failure_type : String) (start : Int) (severity : ℚ) :
    Except String (List TelemetrySample) :=
  let n : Int := df.length
  let start' : Nat := (max 0 (min start (n - 1))).toNat
  let perturbed : Except String (List TelemetrySample) :=
    if failure_type = "thermal_runaway" then
      .ok <| mapFromIdx
        (fun t s => if t < start' then s else thermalPerturb sinF severity (t - start') s) 0 df
    else if failure_type = "power_drain" then
      .ok <| mapFromIdx
        (fun t s => if t < start' then s else powerPerturb sinF severity (t - start') s) 0 df
    else if failure_type = "comm_drop" then
      .ok <| mapFromIdx
        (fun t s => if t < start' then s else commPerturb sinF severity (t - start') s) 0 df
    else
      .error ("Unknown failure_type: " ++ failure_type)
  perturbed.map (List.map reclipRow)

/-- The bounded-channel invariant of the data model (spec §3): battery,
signal and cpu_load stay in [0, 100]. -/
def inBounds (s : TelemetrySample) : Prop :=
  0 ≤ s.battery ∧ s.battery ≤ 100 ∧ 0 ≤ s.signal ∧ s.signal ≤ 100
    ∧ 0 ≤ s.cpu_load ∧ s.cpu_load ≤ 100

instance (s : TelemetrySample) : Decidable (inBounds s) := by
  unfold inBounds; infer_instance

/-- The body of one iteration of the `run_scenario` loop (comparison.py
lines 40-54) applied to the row read at step `i`: if a trigger step exists
and `i` is at or past it, diagnose the current state and apply recovery,
recording the failure mode as the action label; otherwise leave the row
alone with action label "none". -/
def stepRow (trig : Option Nat) (i : Nat) (row : TelemetrySample) :
    TelemetrySample × String :=
  match trig with
  | some ts =>
      if ts ≤ i then
        let failure := diagnose_failure row
        (apply_recovery row failure, failure)
      else (row, "none")
  | none => (row, "none")

/-- The `for i in range(n)` loop of `run_scenario` (comparison.py
lines 40-54), with the trace held as mutable state: step `i` reads
`trace.iloc[i]`, mitigates it when triggered, writes the row back with
`trace.iloc[i] = row`, and appends the action label and
`mission_damage(row)`.  `fuel` counts the remaining iterations. -/
def scenarioLoop (trig : Option Nat) :
    Nat → Nat → List TelemetrySample →
      List TelemetrySample × List String × List ℚ
  | 0, _, tr => (tr, [], [])
  | fuel + 1, i, tr =>
      let row := tr.getD i default
      let rs := stepRow trig i row
      let rest := scenarioLoop trig fuel (i + 1) (tr.set i rs.1)
      (rest.1, rs.2 :: rest.2.1, mission_damage rs.1 :: rest.2.2)

/-- The dictionary returned by `run_scenario` (comparison.py lines 58-66),
plus the loop's local `damage_series` list, exposed so that the per-step
damage can be specified.  `is_anomaly` is the boolean flag sequence
(`anomaly_scores >= anomaly_threshold` in the source). -/
structure ScenarioResult where
  trace : List TelemetrySample
  is_anomaly : List Bool
  trigger_step : Option Nat
  total_damage : ℚ
  survival_score : ℚ
  action_taken : List String
  damage_series : List ℚ
  deriving Repr

/-- `int(np.argmax(is_anom)) if is_anom.any() else None` (comparison.py
line 30): the first flagged index, if any step is flagged. -/
def firstAnom (is_anom : List Bool) : Option Nat :=
  if is_anom.any (fun b => b) then some (is_anom.findIdx (fun b => b)) else none

/-- The trigger-step computation of `run_scenario` (comparison.py
lines 31-33), with `n` the length of the trace. -/
def triggerStep (n : Nat) (is_anom : List Bool) (human_delay_steps : Nat)
    (ai_enabled : Bool) : Option Nat :=
  match firstAnom is_anom with
  | none => none
  | some f => some (if ai_enabled then f else min (n - 1) (f + human_delay_steps))

/-- `run_scenario` (comparison.py lines 9-66).  The detector's side of the
computation (`detector.score` and the 0.96-quantile threshold) is summarized
by the flag sequence `is_anom`; the trigger step is immediate for the
automated responder and delayed (clamped to the last step) for the human
responder. -/
def run_scenario (df : List TelemetrySample) (is_anom : List Bool)
    (human_delay_steps : Nat) (ai_enabled : Bool) : ScenarioResult :=
  let trace := df
  let n := trace.length
  let trigger_step := triggerStep n is_anom human_delay_steps ai_enabled
  let res := scenarioLoop trigger_step n 0 trace
  { trace := res.1,
    is_anomaly := is_anom,
    trigger_step := trigger_step,
    total_damage := res.2.2.sum,
    survival_score := max 0 (1000 - res.2.2.sum),
    action_taken := res.2.1,
    damage_series := res.2.2 }

/-- A value of the dictionary returned by `compare_ai_vs_human`.  The Python
dict is heterogeneous in principle, so the value type admits both a nested
scenario-result dict and a bare number; the source only ever stores the two
scenario results. -/
inductive CompareValue where
  | result (r : ScenarioResult)
  | number (q : ℚ)

/-- Whether a dict value is a bare number (as a derived delta would be). -/
def CompareValue.isNumber : CompareValue → Bool
  | .result _ => false
  | .number _ => true

/-- `compare_ai_vs_human` (comparison.py lines 69-77), modelled as the
key-value list of the returned dict: the Scenario Runner is run twice on the
same injected trace (hence the same detector flags), once with immediate
triggering (`ai_enabled=True`) and once with delayed triggering
(`ai_enabled=False`). -/
def compare_ai_vs_human (df_with_failure : List TelemetrySample)
    (is_anom : List Bool) (human_delay_steps : Nat) :
    List (String × CompareValue) :=
  [("ai", .result (run_scenario df_with_failure is_anom human_delay_steps true)),
   ("human", .result (run_scenario df_with_failure is_anom human_delay_steps false))]

/-- The trace rows produced by the loop, recomputed row-independently:
row `i` of the output is `stepRow trig i` of row `i` of the input. -/
def rowsOf (trig : Option Nat) (i : Nat) (l : List TelemetrySample) :
    List TelemetrySample :=
  mapFromIdx (fun j s => (stepRow trig j s).1) i l

/-- Index-aware map into an arbitrary codomain, for the action and damage
lists of the loop. -/
def mapFromIdxTo {β : Type} (f : Nat → TelemetrySample → β) :
    Nat → List TelemetrySample → List β
  | _, [] => []
  | i, x :: xs => f i x :: mapFromIdxTo f (i + 1) xs

/-- The action labels produced by the loop, recomputed row-independently. -/
def actsOf (trig : Option Nat) (i : Nat) (l : List TelemetrySample) :
    List String :=
  mapFromIdxTo (fun j s => (stepRow trig j s).2) i l

/-- The damage series produced by the loop, recomputed row-independently. -/
def dmgsOf (trig : Option Nat) (i : Nat) (l : List TelemetrySample) :
    List ℚ :=
  mapFromIdxTo (fun j s => mission_damage (stepRow trig j s).1) i l

/-- The per-step damage formula as the spec states it (spec §4.5):
`0.6·max(0, 40−battery) + 1.2·max(0, temperature−45) + 0.7·max(0, 50−signal)
+ 0.4·max(0, cpu_load−80)`, for comparison with `mission_damage`. -/
def damageFormula (row : TelemetrySample) : ℚ :=
  0.6 * max 0 (40 - row.battery) + 1.2 * max 0 (row.temperature - 45)
    + 0.7 * max 0 (50 - row.signal) + 0.4 * max 0 (row.cpu_load - 80)

/-- A concrete in-bounds row diagnosed "thermal" (temperature above 50), used
to instantiate theorems with hypotheses. -/
def hotRow : TelemetrySample :=
  { t := 0, battery := 80, temperature := 60, signal := 90, cpu_load := 50 }

/-- A concrete in-bounds row diagnosed "unknown" (all thresholds clear), used
to instantiate theorems with hypotheses. -/
def calmRow : TelemetrySample :=
  { t := 1, battery := 90, temperature := 30, signal := 95, cpu_load := 40 }

/-- The constant-zero stand-in for `np.sin` / `np.cos` in concrete
instantiations. -/
def zeroF : ℚ → ℚ := fun _ => 0

/-- The constant-zero stand-in for the seeded Gaussian draw table in concrete
instantiations. -/
def zeroNoise : Int → Nat → Nat → ℚ := fun _ _ _ => 0

/-- A second draw table that agrees with `zeroNoise` on seed 5 only. -/
def seededNoise : Int → Nat → Nat → ℚ := fun s _ _ => if s = 5 then 0 else 1

lemma batteryDamage_nonneg (b : ℚ) : 0 ≤ batteryDamage b := by
  unfold batteryDamage; split_ifs with h <;> nlinarith

lemma temperatureDamage_nonneg (T : ℚ) : 0 ≤ temperatureDamage T := by
  unfold temperatureDamage; split_ifs with h <;> nlinarith

lemma signalDamage_nonneg (s : ℚ) : 0 ≤ signalDamage s := by
  unfold signalDamage; split_ifs with h <;> nlinarith

lemma cpuDamage_nonneg (c : ℚ) : 0 ≤ cpuDamage c := by
  unfold cpuDamage; split_ifs with h <;> nlinarith

/-- Lowering battery by `δ ≥ 0` (with the floor at 0) raises the battery
penalty by at most `δ * 0.6`. -/
lemma batteryDamage_drop_le (b δ : ℚ) (hδ : 0 ≤ δ) :
    batteryDamage (max 0 (b - δ)) ≤ batteryDamage b + δ * 0.6 := by
  unfold batteryDamage
  rcases le_total 0 (b - δ) with h | h
  · rw [max_eq_right h]
    split_ifs with h1 h2 h2 <;> nlinarith
  · rw [max_eq_left h]
    split_ifs with h1 h2 h2 <;> nlinarith

/-- Raising a battery below 35 by 0.6 (capped at 100) lowers the battery
penalty by exactly 0.36. -/
lemma batteryDamage_power (b : ℚ) (hb : b < 35) :
    batteryDamage (min 100 (b + 0.6)) ≤ batteryDamage b - 0.36 := by
  unfold batteryDamage
  rw [min_eq_right (by linarith : b + 0.6 ≤ 100)]
  split_ifs with h1 h2 h2 <;> nlinarith

/-- Cooling a temperature above 50 by 3 (floored at 20) lowers the
temperature penalty by exactly 3.6. -/
lemma temperatureDamage_thermal (T : ℚ) (hT : T > 50) :
    temperatureDamage (max 20 (T - 3)) ≤ temperatureDamage T - 3.6 := by
  unfold temperatureDamage
  rw [max_eq_right (by linarith : (20:ℚ) ≤ T - 3)]
  split_ifs with h1 h2 h2 <;> nlinarith

/-- Lowering cpu_load by `δ ≥ 0` (with the floor at 0) never raises the CPU
penalty. -/
lemma cpuDamage_drop_le (c δ : ℚ) (hδ : 0 ≤ δ) :
    cpuDamage (max 0 (c - δ)) ≤ cpuDamage c := by
  unfold cpuDamage
  rcases le_total 0 (c - δ) with h | h
  · rw [max_eq_right h]
    split_ifs with h1 h2 h2 <;> nlinarith
  · rw [max_eq_left h]
    split_ifs with h1 h2 h2 <;> nlinarith

/-- Raising cpu_load by `δ ≥ 0` (capped at 100) raises the CPU penalty by at
most `δ * 0.4`. -/
lemma cpuDamage_rise_le (c δ : ℚ) (hδ : 0 ≤ δ) :
    cpuDamage (min 100 (c + δ)) ≤ cpuDamage c + δ * 0.4 := by
  unfold cpuDamage
  rcases le_total (c + δ) 100 with h | h
  · rw [min_eq_right h]
    split_ifs with h1 h2 h2 <;> nlinarith
  · rw [min_eq_left h]
    split_ifs with h1 h2 h2 <;> nlinarith

/-- Boosting a signal below 40 by 12 (capped at 100) lowers the signal
penalty by at least 7. -/
lemma signalDamage_comm (s : ℚ) (hs : s < 40) :
    signalDamage (min 100 (s + 12)) ≤ signalDamage s - 7 := by
  unfold signalDamage
  rw [min_eq_right (by linarith : s + 12 ≤ 100)]
  split_ifs with h1 h2 h2 <;> nlinarith

/-- Cutting a cpu_load above 85 by 15 (floored at 0) lowers the CPU penalty
by at least 2. -/
lemma cpuDamage_cpu (c : ℚ) (hc : c > 85) :
    cpuDamage (max 0 (c - 15)) ≤ cpuDamage c - 2 := by
  unfold cpuDamage
  rw [max_eq_right (by linarith : (0:ℚ) ≤ c - 15)]
  split_ifs with h1 h2 h2 <;> nlinarith

/-- One diagnose-then-recover step never increases the per-step mission
damage: the mitigation chosen by `diagnose_failure` always pays for its side
costs inside the penalty formula. -/
lemma mission_damage_recovery_le (row : TelemetrySample) :
    mission_damage (apply_recovery row (diagnose_failure row)) ≤ mission_damage row := by
  unfold diagnose_failure
  split_ifs with h1 h2 h3 h4
  · -- thermal: temperature > 50
    have e : apply_recovery row "thermal" =
        { row with temperature := max 20 (row.temperature - 3),
                   cpu_load := max 0 (row.cpu_load - 8),
                   battery := max 0 (row.battery - 0.3) } := by
      simp [apply_recovery]
    rw [e]; unfold mission_damage
    have hb := batteryDamage_drop_le row.battery 0.3 (by norm_num)
    have ht := temperatureDamage_thermal row.temperature h1
    have hc := cpuDamage_drop_le row.cpu_load 8 (by norm_num)
    simp only
    linarith
  · -- power: battery < 35
    have e : apply_recovery row "power" =
        { row with cpu_load := max 0 (row.cpu_load - 10),
                   battery := min 100 (row.battery + 0.6) } := by
      simp [apply_recovery]
    rw [e]; unfold mission_damage
    have hb := batteryDamage_power row.battery h2
    have hc := cpuDamage_drop_le row.cpu_load 10 (by norm_num)
    simp only
    linarith
  · -- comm: signal < 40
    have e : apply_recovery row "comm" =
        { row with signal := min 100 (row.signal + 12),
                   cpu_load := min 100 (row.cpu_load + 2),
                   battery := max 0 (row.battery - 0.2) } := by
      simp [apply_recovery]
    rw [e]; unfold mission_damage
    have hb := batteryDamage_drop_le row.battery 0.2 (by norm_num)
    have hs := signalDamage_comm row.signal h3
    have hc := cpuDamage_rise_le row.cpu_load 2 (by norm_num)
    simp only
    linarith
  · -- cpu: cpu_load > 85
    have e : apply_recovery row "cpu" =
        { row with cpu_load := max 0 (row.cpu_load - 15),
                   battery := max 0 (row.battery - 0.2) } := by
      simp [apply_recovery]
    rw [e]; unfold mission_damage
    have hb := batteryDamage_drop_le row.battery 0.2 (by norm_num)
    have hc := cpuDamage_cpu row.cpu_load h4
    simp only
    linarith
  · -- unknown: no change
    have e : apply_recovery row "unknown" = row := by simp [apply_recovery]
    rw [e]

lemma mapFromIdx_length (f : Nat → TelemetrySample → TelemetrySample) :
    ∀ (i : Nat) (l : List TelemetrySample), (mapFromIdx f i l).length = l.length := by
  intro i l
  induction l generalizing i with
  | nil => rfl
  | cons x xs ih => simp [mapFromIdx, ih]

lemma mapFromIdx_getD (f : Nat → TelemetrySample → TelemetrySample)
    (d : TelemetrySample) :
    ∀ (i t : Nat) (l : List TelemetrySample), t < l.length →
      (mapFromIdx f i l).getD t d = f (i + t) (l.getD t d) := by
  intro i t l
  induction l generalizing i t with
  | nil => intro h; simp at h
  | cons x xs ih =>
      intro h
      cases t with
      | zero => simp [mapFromIdx]
      | succ t' =>
          have ht' : t' < xs.length := by simpa using Nat.lt_of_succ_lt_succ h
          simp only [mapFromIdx, List.getD_cons_succ]
          rw [ih (i + 1) t' ht']
          ring_nf

lemma clip_lower (x : ℚ) : 0 ≤ clip 0 100 x :=
  le_min (by norm_num) (le_max_left 0 x)

lemma clip_upper (x : ℚ) : clip 0 100 x ≤ 100 := min_le_left _ _

lemma reclipRow_inBounds (s : TelemetrySample) : inBounds (reclipRow s) := by
  unfold inBounds reclipRow
  refine ⟨clip_lower _, clip_upper _, clip_lower _, clip_upper _, clip_lower _, clip_upper _⟩

lemma clip_of_inRange (x : ℚ) (h0 : 0 ≤ x) (h1 : x ≤ 100) : clip 0 100 x = x := by
  unfold clip
  rw [max_eq_right h0, min_eq_right h1]

lemma reclipRow_of_inBounds (s : TelemetrySample) (h : inBounds s) : reclipRow s = s := by
  obtain ⟨h1, h2, h3, h4, h5, h6⟩ := h
  unfold reclipRow
  rw [clip_of_inRange _ h1 h2, clip_of_inRange _ h3 h4, clip_of_inRange _ h5 h6]

lemma set_take_succ (v : TelemetrySample) :
    ∀ (l : List TelemetrySample) (i : Nat), i < l.length →
      (l.set i v).take (i + 1) = l.take i ++ [v] := by
  intro l
  induction l with
  | nil => intro i h; simp at h
  | cons x xs ih =>
      intro i h
      cases i with
      | zero => simp
      | succ i' =>
          have h' : i' < xs.length := by simpa using Nat.lt_of_succ_lt_succ h
          simp [List.set, List.take_succ_cons, ih i' h']

/-- The central frame lemma for the scenario loop: although the loop writes
each mitigated row back into the shared trace, the write at step `j` lands at
index `j` and the read at step `i` is at index `i > j`, so the whole loop
equals the row-independent recomputation (`rowsOf`/`actsOf`/`dmgsOf`) of the
untouched suffix. -/
lemma scenarioLoop_eq (trig : Option Nat) :
    ∀ (fuel i : Nat) (tr : List TelemetrySample),
      fuel = tr.length - i → i ≤ tr.length →
      scenarioLoop trig fuel i tr =
        (tr.take i ++ rowsOf trig i (tr.drop i),
         actsOf trig i (tr.drop i),
         dmgsOf trig i (tr.drop i)) := by
  intro fuel
  induction fuel with
  | zero =>
      intro i tr hfuel hle
      have hlen : tr.length = i := by omega
      have hdrop : tr.drop i = [] := by
        apply List.drop_eq_nil_of_le
        omega
      simp [scenarioLoop, hdrop, rowsOf, actsOf, dmgsOf, mapFromIdx, mapFromIdxTo,
        List.take_of_length_le (le_of_eq hlen)]
  | succ fuel ih =>
      intro i tr hfuel hle
      have hi : i < tr.length := by omega
      have hrow : tr.getD i default = tr[i] := List.getD_eq_getElem tr default hi
      have hdropi : tr.drop i = tr[i] :: tr.drop (i + 1) := List.drop_eq_getElem_cons hi
      simp only [scenarioLoop]
      rw [hrow]
      set rs := stepRow trig i tr[i] with hrs
      have hlen' : (tr.set i rs.1).length = tr.length := by simp
      have hIH := ih (i + 1) (tr.set i rs.1) (by omega) (by omega)
      rw [hIH]
      have hdrop' : (tr.set i rs.1).drop (i + 1) = tr.drop (i + 1) := by
        rw [List.drop_set]
        simp
      have htake' : (tr.set i rs.1).take (i + 1) = tr.take i ++ [rs.1] :=
        set_take_succ rs.1 tr i hi
      rw [hdrop', htake', hdropi]
      simp only [rowsOf, actsOf, dmgsOf, mapFromIdx, mapFromIdxTo]
      simp [List.append_assoc]

lemma mapFromIdxTo_length {β : Type} (f : Nat → TelemetrySample → β) :
    ∀ (i : Nat) (l : List TelemetrySample), (mapFromIdxTo f i l).length = l.length := by
  intro i l
  induction l generalizing i with
  | nil => rfl
  | cons x xs ih => simp [mapFromIdxTo, ih]

lemma mapFromIdxTo_getD {β : Type} (f : Nat → TelemetrySample → β) (d : β)
    (dS : TelemetrySample) :
    ∀ (i t : Nat) (l : List TelemetrySample), t < l.length →
      (mapFromIdxTo f i l).getD t d = f (i + t) (l.getD t dS) := by
  intro i t l
  induction l generalizing i t with
  | nil => intro h; simp at h
  | cons x xs ih =>
      intro h
      cases t with
      | zero => simp [mapFromIdxTo]
      | succ t' =>
          have ht' : t' < xs.length := by simpa using Nat.lt_of_succ_lt_succ h
          simp only [mapFromIdxTo, List.getD_cons_succ]
          rw [ih (i + 1) t' ht']
          ring_nf

/-- `run_scenario` in closed form: by the frame lemma, every output list is
the row-independent recomputation over the input trace. -/
lemma run_scenario_unfold (df : List TelemetrySample) (is_anom : List Bool)
    (d : Nat) (ai : Bool) :
    run_scenario df is_anom d ai =
      { trace := rowsOf (triggerStep df.length is_anom d ai) 0 df,
        is_anomaly := is_anom,
        trigger_step := triggerStep df.length is_anom d ai,
        total_damage := (dmgsOf (triggerStep df.length is_anom d ai) 0 df).sum,
        survival_score :=
          max 0 (1000 - (dmgsOf (triggerStep df.length is_anom d ai) 0 df).sum),
        action_taken := actsOf (triggerStep df.length is_anom d ai) 0 df,
        damage_series := dmgsOf (triggerStep df.length is_anom d ai) 0 df } := by
  unfold run_scenario
  dsimp only
  rw [scenarioLoop_eq _ df.length 0 df (by simp) (Nat.zero_le _)]
  simp

/-- `np.argmax` of a boolean array guarded by `.any()`: if index `f` is
flagged and every earlier index is not, then `findIdx` returns `f` and the
array has a flagged entry. -/
lemma findIdx_of_first_true :
    ∀ (fl : List Bool) (f : Nat), fl.getD f false = true →
      (∀ j, j < f → fl.getD j false = false) →
      fl.findIdx (fun b => b) = f ∧ fl.any (fun b => b) = true := by
  intro fl
  induction fl with
  | nil => intro f hf _; simp at hf
  | cons b bs ih =>
      intro f hf hmin
      cases f with
      | zero =>
          simp only [List.getD_cons_zero] at hf
          subst hf
          simp [List.findIdx_cons]
      | succ f' =>
          have hb : b = false := by
            have := hmin 0 (Nat.succ_pos f')
            simpa using this
          subst hb
          simp only [List.getD_cons_succ] at hf
          have hmin' : ∀ j, j < f' → bs.getD j false = false := by
            intro j hj
            have := hmin (j + 1) (Nat.succ_lt_succ hj)
            simpa using this
          obtain ⟨h1, h2⟩ := ih f' hf hmin'
          constructor
          · simp [List.findIdx_cons, h1]
          · simp [h2]

/-- With an earlier (or equal) trigger step, every step of the loop produces
at most the per-step damage of the later trigger: strictly before either
trigger the rows agree, between the two triggers the early responder has
already applied the damage-non-increasing mitigation, and from the later
trigger on both apply it. -/
lemma dmgsOf_mono (ta th : Nat) (hle : ta ≤ th) :
    ∀ (i : Nat) (l : List TelemetrySample),
      (dmgsOf (some ta) i l).sum ≤ (dmgsOf (some th) i l).sum := by
  intro i l
  induction l generalizing i with
  | nil => simp [dmgsOf, mapFromIdxTo]
  | cons r rs ih =>
      simp only [dmgsOf, mapFromIdxTo, List.sum_cons]
      have hhead : mission_damage (stepRow (some ta) i r).1 ≤
          mission_damage (stepRow (some th) i r).1 := by
        unfold stepRow
        by_cases hta : ta ≤ i
        · by_cases hth : th ≤ i
          · simp [hta, hth]
          · simpa [hta, hth] using mission_damage_recovery_le r
        · have hth : ¬ th ≤ i := fun h => hta (le_trans hle h)
          simp [hta, hth]
      have htail := ih (i + 1)
      simp only [dmgsOf] at htail
      linarith

lemma rowsOf_none : ∀ (i : Nat) (l : List TelemetrySample), rowsOf none i l = l := by
  intro i l
  induction l generalizing i with
  | nil => rfl
  | cons x xs ih =>
      show (stepRow none i x).1 :: rowsOf none (i + 1) xs = x :: xs
      rw [ih]
      rfl

lemma actsOf_none : ∀ (i : Nat) (l : List TelemetrySample),
    actsOf none i l = List.replicate l.length "none" := by
  intro i l
  induction l generalizing i with
  | nil => rfl
  | cons x xs ih =>
      show (stepRow none i x).2 :: actsOf none (i + 1) xs =
        List.replicate (x :: xs).length "none"
      rw [ih, List.length_cons, List.replicate_succ]
      rfl

lemma batteryDamage_eq (b : ℚ) : batteryDamage b = 0.6 * max 0 (40 - b) := by
  unfold batteryDamage
  rcases le_total (40 - b) 0 with h | h
  · rw [max_eq_left h]
    split_ifs with h1
    · linarith
    · ring
  · rw [max_eq_right h]
    split_ifs with h1
    · ring
    · have hb : (40 : ℚ) - b = 0 := by linarith
      rw [hb]; ring

lemma temperatureDamage_eq (T : ℚ) : temperatureDamage T = 1.2 * max 0 (T - 45) := by
  unfold temperatureDamage
  rcases le_total (T - 45) 0 with h | h
  · rw [max_eq_left h]
    split_ifs with h1
    · linarith
    · ring
  · rw [max_eq_right h]
    split_ifs with h1
    · ring
    · have hb : T - 45 = 0 := by linarith
      rw [hb]; ring

lemma signalDamage_eq (s : ℚ) : signalDamage s = 0.7 * max 0 (50 - s) := by
  unfold signalDamage
  rcases le_total (50 - s) 0 with h | h
  · rw [max_eq_left h]
    split_ifs with h1
    · linarith
    · ring
  · rw [max_eq_right h]
    split_ifs with h1
    · ring
    · have hb : (50 : ℚ) - s = 0 := by linarith
      rw [hb]; ring

lemma cpuDamage_eq (c : ℚ) : cpuDamage c = 0.4 * max 0 (c - 80) := by
  unfold cpuDamage
  rcases le_total (c - 80) 0 with h | h
  · rw [max_eq_left h]
    split_ifs with h1
    · linarith
    · ring
  · rw [max_eq_right h]
    split_ifs with h1
    · ring
    · have hb : c - 80 = 0 := by linarith
      rw [hb]; ring

/-- `mission_damage` computes exactly the spec's penalty formula. -/
lemma mission_damage_eq_damageFormula (row : TelemetrySample) :
    mission_damage row = damageFormula row := by
  unfold mission_damage damageFormula
  rw [batteryDamage_eq, temperatureDamage_eq, signalDamage_eq, cpuDamage_eq]

lemma getD_map_reclipRow (l : List TelemetrySample) (t : Nat) (h : t < l.length) :
    (l.map reclipRow).getD t default = reclipRow (l.getD t default) := by
  rw [List.getD_eq_getElem _ _ (by simpa using h), List.getElem_map,
      List.getD_eq_getElem _ _ h]

/-- Rows strictly before the (clamped) failure start are mapped to themselves
by the perturbation pass, and the final re-clip is the identity on in-bounds
rows. -/
lemma inject_prefix_helper (p : Nat → TelemetrySample → TelemetrySample)
    (m : Nat) (df : List TelemetrySample) (hdf : ∀ s ∈ df, inBounds s)
    (t : Nat) (ht : t < m) (htd : t < df.length) :
    ((mapFromIdx (fun j s => if j < m then s else p j s) 0 df).map
        reclipRow).getD t default = df.getD t default := by
  have hlen : (mapFromIdx (fun j s => if j < m then s else p j s) 0 df).length
      = df.length := mapFromIdx_length _ 0 df
  rw [getD_map_reclipRow _ t (by rw [hlen]; exact htd)]
  have h1 := mapFromIdx_getD (fun j s => if j < m then s else p j s) default 0 t df htd
  rw [h1]
  simp only [Nat.zero_add, if_pos ht]
  apply reclipRow_of_inBounds
  apply hdf
  rw [List.getD_eq_getElem _ _ htd]
  exact List.getElem_mem htd

/-- C1: for every injected trace and flag sequence of the fitted detector
with at least one flagged step (both runs see the same flags, since both
score the same trace with the same detector), the automated run's trigger
step is at most the human-delayed run's trigger step, and the automated
run's total damage is at most the human-delayed run's total damage. -/
theorem ai_no_worse_than_human (df : List TelemetrySample)
    (is_anom : List Bool) (delay : Nat)
    (hlen : is_anom.length = df.length)
    (hany : is_anom.any (fun b => b) = true) :
    ∃ ta th,
      (run_scenario df is_anom delay true).trigger_step = some ta ∧
      (run_scenario df is_anom delay false).trigger_step = some th ∧
      ta ≤ th ∧
      (run_scenario df is_anom delay true).total_damage ≤
        (run_scenario df is_anom delay false).total_damage := by
  have hfa : firstAnom is_anom = some (is_anom.findIdx (fun b => b)) := by
    simp [firstAnom, hany]
  have htrigA : triggerStep df.length is_anom delay true =
      some (is_anom.findIdx (fun b => b)) := by
    simp [triggerStep, hfa]
  have htrigH : triggerStep df.length is_anom delay false =
      some (min (df.length - 1) (is_anom.findIdx (fun b => b) + delay)) := by
    simp [triggerStep, hfa]
  have hex : ∃ x ∈ is_anom, (fun b => b) x = true := by
    simpa using List.any_eq_true.mp hany
  have hflt : is_anom.findIdx (fun b => b) < is_anom.length :=
    List.findIdx_lt_length_of_exists hex
  have hle : is_anom.findIdx (fun b => b) ≤
      min (df.length - 1) (is_anom.findIdx (fun b => b) + delay) := by
    omega
  refine ⟨is_anom.findIdx (fun b => b),
    min (df.length - 1) (is_anom.findIdx (fun b => b) + delay), ?_, ?_, hle, ?_⟩
  · rw [run_scenario_unfold]
    exact htrigA
  · rw [run_scenario_unfold]
    exact htrigH
  · rw [run_scenario_unfold, run_scenario_unfold]
    simp only [htrigA, htrigH]
    exact dmgsOf_mono _ _ hle 0 df

/-- Witness for C1 at a concrete two-row trace with the second step
flagged. -/
theorem ai_no_worse_than_human_witness :
    ∃ ta th,
      (run_scenario [calmRow, hotRow] [false, true] 3 true).trigger_step = some ta ∧
      (run_scenario [calmRow, hotRow] [false, true] 3 false).trigger_step = some th ∧
      ta ≤ th ∧
      (run_scenario [calmRow, hotRow] [false, true] 3 true).total_damage ≤
        (run_scenario [calmRow, hotRow] [false, true] 3 false).total_damage :=
  ai_no_worse_than_human [calmRow, hotRow] [false, true] 3 (by decide) (by decide)

/-- C3: the trigger step of a scenario run is the first flagged step for the
automated responder and `min(n-1, first flagged + human_delay)` for the
human-delayed responder; if no step is flagged the trigger is absent, the
trace is left untouched (the run stays dormant) and every action label is
"none". -/
theorem trigger_step_spec (df : List TelemetrySample) (is_anom : List Bool)
    (delay : Nat) (ai : Bool) :
    ((∀ b ∈ is_anom, b = false) →
      (run_scenario df is_anom delay ai).trigger_step = none ∧
      (run_scenario df is_anom delay ai).trace = df ∧
      (run_scenario df is_anom delay ai).action_taken =
        List.replicate df.length "none") ∧
    (∀ f : Nat, is_anom.getD f false = true →
      (∀ j, j < f → is_anom.getD j false = false) →
      (run_scenario df is_anom delay true).trigger_step = some f ∧
      (run_scenario df is_anom delay false).trigger_step =
        some (min (df.length - 1) (f + delay))) := by
  constructor
  · intro hnone
    have hany : is_anom.any (fun b => b) = false := by
      rw [List.any_eq_false]
      intro x hx
      simp [hnone x hx]
    have htrig : triggerStep df.length is_anom delay ai = none := by
      simp [triggerStep, firstAnom, hany]
    rw [run_scenario_unfold]
    refine ⟨htrig, ?_, ?_⟩
    · simp only [htrig]
      exact rowsOf_none 0 df
    · simp only [htrig]
      exact actsOf_none 0 df
  · intro f hf hmin
    obtain ⟨hidx, hany⟩ := findIdx_of_first_true is_anom f hf hmin
    have hfa : firstAnom is_anom = some f := by
      simp [firstAnom, hany, hidx]
    rw [run_scenario_unfold, run_scenario_unfold]
    constructor
    · simp [triggerStep, hfa]
    · simp [triggerStep, hfa]

/-- Witness for C3: a flagged second step gives triggers 1 and
min(1, 1+5) = 1; an unflagged run stays dormant with both action labels
"none". -/
theorem trigger_step_spec_witness :
    ((run_scenario [calmRow, hotRow] [false, true] 5 true).trigger_step = some 1 ∧
      (run_scenario [calmRow, hotRow] [false, true] 5 false).trigger_step =
        some (min (2 - 1) (1 + 5))) ∧
    ((run_scenario [calmRow, hotRow] [false, false] 5 true).trigger_step = none ∧
      (run_scenario [calmRow, hotRow] [false, false] 5 true).action_taken =
        List.replicate 2 "none") := by
  constructor
  · exact (trigger_step_spec [calmRow, hotRow] [false, true] 5 true).2 1 (by decide)
      (by intro j hj; have hj0 : j = 0 := by omega
          subst hj0; rfl)
  · have h := (trigger_step_spec [calmRow, hotRow] [false, false] 5 true).1 (by decide)
    exact ⟨h.1, h.2.2⟩

/-- C10: the scenario loop is memoryless across steps even though it writes
every mitigated row back into the shared trace: the row that step `i`
diagnoses, recovers and scores is exactly row `i` of the input injected
trace, so the output row, action label and per-step damage at `i` are each a
function of input row `i` alone. -/
theorem scenario_memoryless (df : List TelemetrySample) (is_anom : List Bool)
    (delay : Nat) (ai : Bool) (i : Nat) (hi : i < df.length) :
    (run_scenario df is_anom delay ai).trace.getD i default =
      (stepRow (run_scenario df is_anom delay ai).trigger_step i
        (df.getD i default)).1 ∧
    (run_scenario df is_anom delay ai).action_taken.getD i "none" =
      (stepRow (run_scenario df is_anom delay ai).trigger_step i
        (df.getD i default)).2 ∧
    (run_scenario df is_anom delay ai).damage_series.getD i 0 =
      mission_damage (stepRow (run_scenario df is_anom delay ai).trigger_step i
        (df.getD i default)).1 := by
  rw [run_scenario_unfold]
  refine ⟨?_, ?_, ?_⟩
  · simpa using mapFromIdx_getD
      (fun j s => (stepRow (triggerStep df.length is_anom delay ai) j s).1)
      default 0 i df hi
  · simpa using mapFromIdxTo_getD
      (fun j s => (stepRow (triggerStep df.length is_anom delay ai) j s).2)
      "none" default 0 i df hi
  · simpa using mapFromIdxTo_getD
      (fun j s => mission_damage
        (stepRow (triggerStep df.length is_anom delay ai) j s).1)
      0 default 0 i df hi

/-- Witness for C10 at a concrete two-row trace, step 1. -/
theorem scenario_memoryless_witness :
    (run_scenario [calmRow, hotRow] [true, false] 2 true).trace.getD 1 default =
      (stepRow (run_scenario [calmRow, hotRow] [true, false] 2 true).trigger_step 1
        ([calmRow, hotRow].getD 1 default)).1 ∧
    (run_scenario [calmRow, hotRow] [true, false] 2 true).action_taken.getD 1 "none" =
      (stepRow (run_scenario [calmRow, hotRow] [true, false] 2 true).trigger_step 1
        ([calmRow, hotRow].getD 1 default)).2 ∧
    (run_scenario [calmRow, hotRow] [true, false] 2 true).damage_series.getD 1 0 =
      mission_damage
        (stepRow (run_scenario [calmRow, hotRow] [true, false] 2 true).trigger_step 1
          ([calmRow, hotRow].getD 1 default)).1 :=
  scenario_memoryless [calmRow, hotRow] [true, false] 2 true 1 (by decide)

/-- C4: every scenario run scores each step by the spec's penalty formula
evaluated on the current (post-mitigation, if mitigating) sample of that
step, its total damage is the sum of the per-step damages over all n steps,
and its survival score is `max(0, 1000 - total damage)`. -/
theorem damage_formula_spec (df : List TelemetrySample) (is_anom : List Bool)
    (delay : Nat) (ai : Bool) :
    (run_scenario df is_anom delay ai).damage_series.length = df.length ∧
    (∀ i, i < df.length →
      (run_scenario df is_anom delay ai).damage_series.getD i 0 =
        damageFormula ((run_scenario df is_anom delay ai).trace.getD i default)) ∧
    (run_scenario df is_anom delay ai).total_damage =
      (run_scenario df is_anom delay ai).damage_series.sum ∧
    (run_scenario df is_anom delay ai).survival_score =
      max 0 (1000 - (run_scenario df is_anom delay ai).total_damage) := by
  rw [run_scenario_unfold]
  refine ⟨mapFromIdxTo_length _ 0 df, ?_, rfl, rfl⟩
  intro i hi
  have hd := mapFromIdxTo_getD
    (fun j s => mission_damage
      (stepRow (triggerStep df.length is_anom delay ai) j s).1) 0 default 0 i df hi
  have hr := mapFromIdx_getD
    (fun j s => (stepRow (triggerStep df.length is_anom delay ai) j s).1)
    default 0 i df hi
  simp only [dmgsOf, rowsOf] at hd hr ⊢
  rw [hd, hr, Nat.zero_add, mission_damage_eq_damageFormula]

/-- Witness for C4 at a concrete two-row run, step 0. -/
theorem damage_formula_spec_witness :
    (run_scenario [calmRow, hotRow] [true, false] 1 true).damage_series.getD 0 0 =
      damageFormula
        ((run_scenario [calmRow, hotRow] [true, false] 1 true).trace.getD 0 default) :=
  (damage_formula_spec [calmRow, hotRow] [true, false] 1 true).2.1 0 (by decide)

/-- C2 (amended): the comparison harness returns exactly the two
ScenarioResults — the automated run under key "ai" and the human-delayed run
under key "human", both over the same trace and flags — and nothing else; in
particular no numeric delta entry (damage reduced, relative reduction,
survival gain) is part of the returned value. -/
theorem compare_returns_results_only (df : List TelemetrySample)
    (is_anom : List Bool) (delay : Nat) :
    (compare_ai_vs_human df is_anom delay).map Prod.fst = ["ai", "human"] ∧
    (compare_ai_vs_human df is_anom delay).lookup "ai" =
      some (.result (run_scenario df is_anom delay true)) ∧
    (compare_ai_vs_human df is_anom delay).lookup "human" =
      some (.result (run_scenario df is_anom delay false)) ∧
    (compare_ai_vs_human df is_anom delay).all
      (fun kv => !(kv.2).isNumber) = true := by
  refine ⟨rfl, ?_, ?_, rfl⟩ <;> rfl

/-- C2 counterexample: at a concrete input, the value returned by
`compare_ai_vs_human` holds exactly the entries "ai" and "human", and no
entry of the returned dict is a bare number — so none of the claimed derived
deltas (damage reduced, relative reduction, survival gain) is returned by
the harness. -/
theorem compare_no_deltas_cex :
    (compare_ai_vs_human [hotRow] [true] 3).map Prod.fst = ["ai", "human"] ∧
    (compare_ai_vs_human [hotRow] [true] 3).all
      (fun kv => !(kv.2).isNumber) = true :=
  ⟨rfl, rfl⟩

/-- C5: every sample produced by generation or failure injection, and every
sample produced by one-step recovery from an in-bounds sample, keeps
battery, signal and cpu_load inside [0, 100]. -/
theorem clamping_invariant :
    (∀ (sinF cosF : ℚ → ℚ) (noise : Int → Nat → Nat → ℚ) (n seed : Int)
        (scale : ℚ) (l : List TelemetrySample),
        simulate_telemetry sinF cosF noise n seed scale = .ok l →
        ∀ s ∈ l, inBounds s) ∧
    (∀ (sinF : ℚ → ℚ) (df : List TelemetrySample) (ft : String) (start : Int)
        (sev : ℚ) (l : List TelemetrySample),
        inject_failure sinF df ft start sev = .ok l → ∀ s ∈ l, inBounds s) ∧
    (∀ (s : TelemetrySample) (mode : String), inBounds s →
        inBounds (apply_recovery s mode)) := by
  refine ⟨?_, ?_, ?_⟩
  · intro sinF cosF noise n seed scale l hok
    unfold simulate_telemetry at hok
    split_ifs at hok
    simp only [Except.ok.injEq] at hok
    subst hok
    intro s hs
    rw [List.mem_map] at hs
    obtain ⟨t, _, rfl⟩ := hs
    exact ⟨clip_lower _, clip_upper _, clip_lower _, clip_upper _,
      clip_lower _, clip_upper _⟩
  · intro sinF df ft start sev l hok
    unfold inject_failure at hok
    dsimp only at hok
    split_ifs at hok <;>
      [skip; skip; skip;
       exact absurd hok (by simp [Except.map])] <;>
    · simp only [Except.map, Except.ok.injEq] at hok
      subst hok
      intro s hs
      rw [List.mem_map] at hs
      obtain ⟨r, _, rfl⟩ := hs
      exact reclipRow_inBounds r
  · intro s mode h
    obtain ⟨h1, h2, h3, h4, h5, h6⟩ := h
    unfold apply_recovery
    split_ifs
    · exact ⟨le_max_left 0 _, max_le (by norm_num) (by linarith),
        h3, h4, le_max_left 0 _, max_le (by norm_num) (by linarith)⟩
    · exact ⟨le_min (by norm_num) (by linarith), min_le_left _ _,
        h3, h4, le_max_left 0 _, max_le (by norm_num) (by linarith)⟩
    · exact ⟨le_max_left 0 _, max_le (by norm_num) (by linarith),
        le_min (by norm_num) (by linarith), min_le_left _ _,
        le_min (by norm_num) (by linarith), min_le_left _ _⟩
    · exact ⟨le_max_left 0 _, max_le (by norm_num) (by linarith),
        h3, h4, le_max_left 0 _, max_le (by norm_num) (by linarith)⟩
    · exact ⟨h1, h2, h3, h4, h5, h6⟩

/-- Witness for C5: a concrete generated series, a concrete injected series
and a concrete recovered sample, all in bounds. -/
theorem clamping_invariant_witness :
    (∃ l, simulate_telemetry zeroF zeroF zeroNoise 1 0 1 = .ok l ∧
      ∀ s ∈ l, inBounds s) ∧
    (∃ l, inject_failure zeroF [calmRow, hotRow] "thermal_runaway" 1 1 = .ok l ∧
      ∀ s ∈ l, inBounds s) ∧
    inBounds (apply_recovery calmRow "comm") :=
  ⟨⟨_, rfl, clamping_invariant.1 zeroF zeroF zeroNoise 1 0 1 _ rfl⟩,
   ⟨_, rfl, clamping_invariant.2.1 zeroF [calmRow, hotRow] "thermal_runaway" 1 1 _ rfl⟩,
   clamping_invariant.2.2 calmRow "comm" (by decide)⟩

/-- C6: the generated series is a function of (n_steps, seed, noise_scale)
and of the draw stream at that seed alone: two draw tables that agree on the
given seed (whatever they do at other seeds, i.e. whatever any other random
state holds) produce bit-identical series; in particular two calls with
identical arguments are identical. -/
theorem generator_seed_determinism (sinF cosF : ℚ → ℚ)
    (noise1 noise2 : Int → Nat → Nat → ℚ) (n seed : Int) (scale : ℚ)
    (hagree : ∀ ch t, noise1 seed ch t = noise2 seed ch t) :
    simulate_telemetry sinF cosF noise1 n seed scale =
      simulate_telemetry sinF cosF noise2 n seed scale := by
  unfold simulate_telemetry
  split_ifs with h1 h2 h3
  · rfl
  · rfl
  · rfl
  · congr 1
    apply List.map_congr_left
    intro t _
    simp only [hagree]

/-- Witness for C6: `zeroNoise` and `seededNoise` agree at seed 5 only, and
the two generated series coincide. -/
theorem generator_seed_determinism_witness :
    simulate_telemetry zeroF zeroF zeroNoise 2 5 1 =
      simulate_telemetry zeroF zeroF seededNoise 2 5 1 :=
  generator_seed_determinism zeroF zeroF zeroNoise seededNoise 2 5 1
    (fun ch t => by simp [zeroNoise, seededNoise])

/-- C7: for a series satisfying the data model's bounds invariant and a
FailureSpec in its stated domain (recognized archetype, 0 ≤ start < n), the
injector succeeds and every sample strictly before `start` is exactly the
corresponding input sample.  (The injector acts on a copy, so in this
functional embedding the input list itself is untouched by construction.) -/
theorem injector_prefix_preserved (sinF : ℚ → ℚ) (df : List TelemetrySample)
    (ft : String) (start : Int) (sev : ℚ)
    (hft : ft = "thermal_runaway" ∨ ft = "power_drain" ∨ ft = "comm_drop")
    (h0 : 0 ≤ start) (hn : start < (df.length : Int))
    (hdf : ∀ s ∈ df, inBounds s) :
    ∃ out, inject_failure sinF df ft start sev = .ok out ∧
      out.length = df.length ∧
      ∀ t : Nat, (t : Int) < start →
        out.getD t default = df.getD t default := by
  have hstart : (max 0 (min start ((df.length : Int) - 1))).toNat = start.toNat := by
    omega
  rcases hft with h | h | h <;> subst h
  · refine ⟨_, rfl, by simp [mapFromIdx_length], ?_⟩
    intro t ht
    have htm : t < (max 0 (min start ((df.length : Int) - 1))).toNat := by omega
    have htd : t < df.length := by omega
    exact inject_prefix_helper _ _ df hdf t htm htd
  · refine ⟨_, rfl, by simp [mapFromIdx_length], ?_⟩
    intro t ht
    have htm : t < (max 0 (min start ((df.length : Int) - 1))).toNat := by omega
    have htd : t < df.length := by omega
    exact inject_prefix_helper _ _ df hdf t htm htd
  · refine ⟨_, rfl, by simp [mapFromIdx_length], ?_⟩
    intro t ht
    have htm : t < (max 0 (min start ((df.length : Int) - 1))).toNat := by omega
    have htd : t < df.length := by omega
    exact inject_prefix_helper _ _ df hdf t htm htd

/-- Witness for C7 at a concrete two-row series with a comm_drop injected at
step 1. -/
theorem injector_prefix_preserved_witness :
    ∃ out, inject_failure zeroF [calmRow, hotRow] "comm_drop" 1 2 = .ok out ∧
      out.length = [calmRow, hotRow].length ∧
      ∀ t : Nat, (t : Int) < 1 →
        out.getD t default = [calmRow, hotRow].getD t default :=
  injector_prefix_preserved zeroF [calmRow, hotRow] "comm_drop" 1 2
    (Or.inr (Or.inr rfl)) (by norm_num) (by norm_num) (by decide)

/-- C8 counterexample: called with `n_steps = 0` — a non-positive step
count — the generator returns an empty series without error, instead of the
failure the claim requires for every non-positive step count. -/
theorem generator_zero_steps_ok :
    simulate_telemetry zeroF zeroF zeroNoise 0 42 1 = .ok [] := rfl

/-- C8 (amended): the generator fails exactly when the seed is negative
(`default_rng` rejects negative entropy), `n_steps` is negative (the seeded
Gaussian draw rejects a negative size) or `noise_scale` is negative (the
draw rejects a negative scale) — all surfaced as numpy's ValueError; with a
non-negative seed and noise_scale, `n_steps = 0` yields an empty series and
every positive `n_steps` yields a series, both without error. -/
theorem generator_error_iff_invalid_input (sinF cosF : ℚ → ℚ)
    (noise : Int → Nat → Nat → ℚ) (n seed : Int) (scale : ℚ) :
    (∃ msg, simulate_telemetry sinF cosF noise n seed scale = .error msg)
      ↔ (seed < 0 ∨ n < 0 ∨ scale < 0) := by
  unfold simulate_telemetry
  split_ifs with h1 h2 h3
  · exact ⟨fun _ => Or.inl h1, fun _ => ⟨_, rfl⟩⟩
  · exact ⟨fun _ => Or.inr (Or.inl h2), fun _ => ⟨_, rfl⟩⟩
  · exact ⟨fun _ => Or.inr (Or.inr h3), fun _ => ⟨_, rfl⟩⟩
  · constructor
    · rintro ⟨msg, hmsg⟩
      exact absurd hmsg (by simp)
    · rintro (h | h | h)
      · exact absurd h h1
      · exact absurd h h2
      · exact absurd h h3

/-- C9: one-step recovery applies exactly the mode's additive mitigation,
clamped to the channel domains, and leaves every other channel (and the step
index) unchanged; an "unknown" diagnosis changes nothing. -/
theorem recovery_mode_table (row : TelemetrySample) :
    ((apply_recovery row "thermal").temperature = max 20 (row.temperature - 3) ∧
      (apply_recovery row "thermal").cpu_load = max 0 (row.cpu_load - 8) ∧
      (apply_recovery row "thermal").battery = max 0 (row.battery - 0.3) ∧
      (apply_recovery row "thermal").signal = row.signal ∧
      (apply_recovery row "thermal").t = row.t) ∧
    ((apply_recovery row "power").cpu_load = max 0 (row.cpu_load - 10) ∧
      (apply_recovery row "power").battery = min 100 (row.battery + 0.6) ∧
      (apply_recovery row "power").temperature = row.temperature ∧
      (apply_recovery row "power").signal = row.signal ∧
      (apply_recovery row "power").t = row.t) ∧
    ((apply_recovery row "comm").signal = min 100 (row.signal + 12) ∧
      (apply_recovery row "comm").cpu_load = min 100 (row.cpu_load + 2) ∧
      (apply_recovery row "comm").battery = max 0 (row.battery - 0.2) ∧
      (apply_recovery row "comm").temperature = row.temperature ∧
      (apply_recovery row "comm").t = row.t) ∧
    ((apply_recovery row "cpu").cpu_load = max 0 (row.cpu_load - 15) ∧
      (apply_recovery row "cpu").battery = max 0 (row.battery - 0.2) ∧
      (apply_recovery row "cpu").temperature = row.temperature ∧
      (apply_recovery row "cpu").signal = row.signal ∧
      (apply_recovery row "cpu").t = row.t) ∧
    apply_recovery row "unknown" = row := by
  refine ⟨⟨?_, ?_, ?_, ?_, ?_⟩, ⟨?_, ?_, ?_, ?_, ?_⟩, ⟨?_, ?_, ?_, ?_, ?_⟩,
    ⟨?_, ?_, ?_, ?_, ?_⟩, ?_⟩ <;> simp [apply_recovery]
